import Mathlib

/-!
Verification of the Presentation API shim (src/presentation-api-shim.js):
a shallow embedding of the shim's connection/session state machine, the
discovery phase of PresentationRequest.start, the reconnect-by-id lookup,
the receiver registry, and the Cast navigation validation.

The JavaScript code is single-threaded and callback driven; asynchronous
steps are embedded as explicit state-passing functions: the synchronous
part of an operation and the deferred continuation that runs when the
underlying promise settles are separate Lean functions.
-/

namespace SlidyRemote

/-- States the shim stores in the `state` fields of channels and
connections: the string values 'closed', 'connected' and 'terminated'. -/
inductive PState
  | closed
  | connected
  | terminated
deriving DecidableEq, Repr

/-- Names of the DOMException values the shim rejects or throws with,
plus the JavaScript TypeError that some code paths raise. -/
inductive DOMErr
  | NotFoundError
  | AbortError
  | OperationError
  | InvalidStateError
  | NotSupportedError
  | InvalidAccessError
  | TypeError
deriving DecidableEq, Repr

/-- Observable state of a DataChannel: its connection state and the number
of times its onstatechange handler has fired. -/
structure DataChannel where
  state : PState
  events : Nat
deriving DecidableEq, Repr

/-- DataChannel.send: throws InvalidStateError unless the state is
connected; otherwise hands the message to the transport and returns. -/
def DataChannel.send (ch : DataChannel) : Except DOMErr Unit :=
  if ch.state ≠ PState.connected then Except.error DOMErr.InvalidStateError
  else Except.ok ()

/-- DataChannel.close: returns immediately unless the state is connected;
otherwise moves the state to closed and fires onstatechange once. -/
def DataChannel.close (ch : DataChannel) : DataChannel :=
  if ch.state ≠ PState.connected then ch
  else { state := PState.closed, events := ch.events + 1 }

/-- Observable state of a PresentationConnection: its public state, the
private channel variable (none when null, otherwise the channel state),
whether a createDataChannel promise is in flight, the number of times the
connection's onstatechange handler has fired, and counters for the calls
made into the remote peer (createDataChannel and terminate). -/
structure PresentationConnection where
  state : PState
  channel : Option PState
  pendingPromise : Bool
  events : Nat
  peerCreateCalls : Nat
  peerTerminateCalls : Nat
deriving DecidableEq, Repr

/-- A freshly constructed PresentationConnection: state closed, no channel,
no in-flight channel creation, no events fired. -/
def PresentationConnection.fresh : PresentationConnection :=
  { state := PState.closed, channel := none, pendingPromise := false,
    events := 0, peerCreateCalls := 0, peerTerminateCalls := 0 }

/-- Handler installed on channel.onstatechange by createDataChannel,
processing a channel state change to the state s: the connection copies the
channel state into its own state, firing its onstatechange handler when the
two differ, and drops the channel (so that it will be re-created) when the
new channel state is not connected. -/
def PresentationConnection.channelStateChange
    (c : PresentationConnection) (s : PState) : PresentationConnection :=
  let c1 := { c with channel := some s }
  let c2 :=
    if s ≠ c1.state then { c1 with state := s, events := c1.events + 1 }
    else c1
  if s ≠ PState.connected then { c2 with channel := none } else c2

/-- Synchronous outcome of a call to
PresentationConnection.createDataChannel. -/
inductive CreateDataChannelResult
  | raisedTypeError
  | resolvedExisting
  | newPending
deriving DecidableEq, Repr

/-- Synchronous part of PresentationConnection.createDataChannel: when a
creation is already in flight the code runs pendingPromise(), which applies
the stored Promise object as a function and raises a TypeError; when a
channel already exists the returned promise resolves with it; otherwise
remotePeer.createDataChannel is invoked exactly once and the resulting
promise is stored as the in-flight creation attempt. -/
def PresentationConnection.createDataChannelCall
    (c : PresentationConnection) :
    PresentationConnection × CreateDataChannelResult :=
  if c.pendingPromise then (c, CreateDataChannelResult.raisedTypeError)
  else if c.channel.isSome then (c, CreateDataChannelResult.resolvedExisting)
  else ({ c with pendingPromise := true,
                 peerCreateCalls := c.peerCreateCalls + 1 },
        CreateDataChannelResult.newPending)

/-- Continuation of createDataChannel that runs once the remote peer
resolves with a channel whose state is s: the in-flight promise is cleared,
the channel stored and its handlers installed, and the connection state is
synchronized with the channel state, firing onstatechange when the two
differ. -/
def PresentationConnection.createDataChannelComplete
    (c : PresentationConnection) (s : PState) : PresentationConnection :=
  let c1 := { c with pendingPromise := false, channel := some s }
  if c1.state ≠ s then { c1 with state := s, events := c1.events + 1 }
  else c1

/-- PresentationConnection.send: throws InvalidStateError when no channel
exists or when the connection state is not connected; otherwise delegates
to channel.send, which throws InvalidStateError when the channel state is
not connected. -/
def PresentationConnection.send
    (c : PresentationConnection) : Except DOMErr Unit :=
  match c.channel with
  | none => Except.error DOMErr.InvalidStateError
  | some chs =>
    if c.state ≠ PState.connected then Except.error DOMErr.InvalidStateError
    else if chs ≠ PState.connected then
      Except.error DOMErr.InvalidStateError
    else Except.ok ()

/-- PresentationConnection.close: returns immediately when no channel
exists; otherwise calls channel.close, which is a no-op when the channel is
not connected, and which otherwise fires the onstatechange handler that
synchronizes the connection state. -/
def PresentationConnection.close
    (c : PresentationConnection) : PresentationConnection :=
  match c.channel with
  | none => c
  | some chs =>
    if chs ≠ PState.connected then c
    else c.channelStateChange PState.closed

/-- PresentationConnection.terminate: closes the channel when present
(which, when the channel was connected, fires the onstatechange handler and
synchronizes the connection state to closed), calls remotePeer.terminate
unconditionally, and then forces the state to terminated, firing
onstatechange unless the state already was terminated. -/
def PresentationConnection.terminate
    (c : PresentationConnection) : PresentationConnection :=
  let c1 :=
    match c.channel with
    | none => c
    | some chs =>
      if chs ≠ PState.connected then c
      else c.channelStateChange PState.closed
  let c2 := { c1 with peerTerminateCalls := c1.peerTerminateCalls + 1 }
  if c2.state ≠ PState.terminated then
    { c2 with state := PState.terminated, events := c2.events + 1 }
  else c2

/-- PresentationConnection.terminate on a connection whose remote peer is a
WindowRemoteController (the receiver side of the window mechanism):
neither WindowRemoteController nor the base RemoteController defines a
terminate method, so after the channel is closed (which, when the channel
was connected, fires the onstatechange handler and synchronizes the
connection state to closed) the expression remotePeer.terminate() applies
undefined as a function and raises a TypeError; the final step that forces
the state to terminated never runs. The returned pair carries the
connection state at the point of the throw and the raised error. -/
def PresentationConnection.terminateWindowReceiver
    (c : PresentationConnection) :
    PresentationConnection × Except DOMErr Unit :=
  let c1 :=
    match c.channel with
    | none => c
    | some chs =>
      if chs ≠ PState.connected then c
      else c.channelStateChange PState.closed
  (c1, Except.error DOMErr.TypeError)

/-- Flatten step of monitorAvailablePresentationDisplays: the code runs
lists.reduce(function (a, b) { return a.concat(b); }) without an initial
value, which raises a TypeError (modeled as none) when the array of
per-mechanism display lists is empty, and otherwise folds concatenation
over the remaining lists starting from the first one. -/
def flattenDisplayLists (lists : List (List String)) :
    Option (List String) :=
  match lists with
  | [] => none
  | l :: rest => some (rest.foldl (fun a b => a ++ b) l)

/-- Outcome of PresentationRequest.start, up to the user-selection step. -/
inductive StartOutcome
  | hung
  | rejected (e : DOMErr)
  | selecting (displays : List String)
deriving DecidableEq, Repr

/-- Discovery phase of PresentationRequest.start: every registered
mechanism reports its display list (getAvailableDisplays never rejects) and
the lists are concatenated in registration order. When the flatten step
raises, the monitoring promise never settles and the promise returned by
start hangs. When the merged list is empty, start rejects with
NotFoundError. Otherwise the user-selection step is reached with the merged
list. -/
def start (mechanismDisplays : List (List String)) : StartOutcome :=
  match flattenDisplayLists mechanismDisplays with
  | none => StartOutcome.hung
  | some ds =>
    if ds.length = 0 then StartOutcome.rejected DOMErr.NotFoundError
    else StartOutcome.selecting ds

/-- Record of the controlling-side registry setOfPresentations: the request
url, the assigned presentation identifier, and a token identifying the
PresentationConnection object. -/
structure PresentationRecord where
  url : String
  id : Nat
  connection : Nat
deriving DecidableEq, Repr

/-- getNewValidPresentationConnectionIdentifier: returns
setOfPresentations.length. -/
def getNewValidPresentationConnectionIdentifier
    (setOfPresentations : List PresentationRecord) : Nat :=
  setOfPresentations.length

/-- createPresentationConnection: constructs a connection (identified here
by the token tok), assigns it a freshly minted identifier, and pushes the
record onto the registry. -/
def createPresentationConnection
    (setOfPresentations : List PresentationRecord)
    (url : String) (tok : Nat) : List PresentationRecord × Nat :=
  let id := getNewValidPresentationConnectionIdentifier setOfPresentations
  (setOfPresentations ++ [{ url := url, id := id, connection := tok }], id)

/-- Registry obtained after a sequence of successful start calls, one per
url in the list, beginning from the empty registry. -/
def runStarts (urls : List String) : List PresentationRecord :=
  urls.foldl
    (fun reg url => (createPresentationConnection reg url reg.length).1) []

/-- PresentationRequest.reconnect: scans setOfPresentations for the first
record whose url and id both match; when found, the promise resolves with
that record's existing connection (and channel materialization is
re-triggered on it); when not found, the promise rejects with
NotFoundError. No record is added or removed: the registry is returned
unchanged. -/
def reconnect (setOfPresentations : List PresentationRecord)
    (url : String) (presentationId : Nat) :
    List PresentationRecord × Except DOMErr Nat :=
  match setOfPresentations.find?
      (fun p => p.url == url && p.id == presentationId) with
  | some p => (setOfPresentations, Except.ok p.connection)
  | none => (setOfPresentations, Except.error DOMErr.NotFoundError)

/-- Observable state of the PresentationReceiver: the shared pending
promise (identified by a token), the stored pending resolve function (the
token of the promise it would resolve), the shared connection variable of
monitorIncomingPresentationConnections (holding the most recently detected
incoming connection, as a token), the ghost record of the connections
whose channel creation has actually resolved, the entries of
setOfIncomingPresentations in push order (as connection tokens), the
promise resolutions performed so far, and the number of monitoring passes
started. -/
structure PresentationReceiver where
  pendingPromise : Option Nat
  nextPromiseToken : Nat
  pendingResolve : Option Nat
  lastDetected : Option Nat
  materialized : List Nat
  incoming : List Nat
  resolved : List (Nat × Nat)
  monitorPasses : Nat
deriving DecidableEq, Repr

/-- PresentationReceiver.getConnection, synchronous part: when a pending
promise already exists it is returned as is; otherwise a new promise is
created, stored as the shared pending promise, and returned. No monitoring
pass is started by this method. -/
def PresentationReceiver.getConnection
    (r : PresentationReceiver) : PresentationReceiver × Nat :=
  match r.pendingPromise with
  | some t => (r, t)
  | none =>
    let t := r.nextPromiseToken
    ({ r with pendingPromise := some t, nextPromiseToken := t + 1 }, t)

/-- Task queued by getConnection for a freshly created promise t: when no
incoming presentation has been recorded yet, the resolve function is stored
for later, leaving the promise pending; otherwise the promise resolves with
the first incoming presentation's connection. -/
def PresentationReceiver.getConnectionTask
    (r : PresentationReceiver) (t : Nat) : PresentationReceiver :=
  match r.incoming with
  | [] => { r with pendingResolve := some t }
  | c :: _ => { r with resolved := r.resolved ++ [(t, c)] }

/-- monitorIncomingPresentationConnections: one monitoring pass, asking
every registered mechanism to monitor incoming controllers. -/
def PresentationReceiver.monitorPass
    (r : PresentationReceiver) : PresentationReceiver :=
  { r with monitorPasses := r.monitorPasses + 1 }

/-- Handler run when a mechanism reports an incoming controller: the
shared connection variable of monitorIncomingPresentationConnections is
overwritten with a new PresentationConnection wrapping that controller
(identified here by the token c), and channel creation starts for it. All
onincomingcontroller handlers and their continuations close over this one
variable. -/
def PresentationReceiver.controllerDetected
    (r : PresentationReceiver) (c : Nat) : PresentationReceiver :=
  { r with lastDetected := some c }

/-- Continuation run when the channel creation started for the connection c
resolves: c's channel has materialized (recorded in the ghost field), but
the callback body reads the shared connection variable, which holds the
most recently detected connection, not necessarily c; that connection is
pushed onto setOfIncomingPresentations and, when a pending resolve function
is stored, resolves the pending promise exactly once, after which both the
resolve function and the pending promise are cleared. -/
def PresentationReceiver.channelMaterialized
    (r : PresentationReceiver) (c : Nat) : PresentationReceiver :=
  let r0 := { r with materialized := r.materialized ++ [c] }
  match r0.lastDetected with
  | none => r0
  | some d =>
    let r1 := { r0 with incoming := r0.incoming ++ [d] }
    match r1.pendingResolve with
    | some t =>
      { r1 with resolved := r1.resolved ++ [(t, d)],
                pendingResolve := none, pendingPromise := none }
    | none => r1

/-- registerCastApplication: records the mapping from a receiver
application url to its Cast application id. The assignment
castApplications[url] = id is modeled by prepending, so that a lookup finds
the most recent entry for a url. -/
def registerCastApplication (castApplications : List (String × String))
    (url : String) (id : String) : List (String × String) :=
  (url, id) :: castApplications

/-- Mapping table obtained from a sequence of registerCastApplication
calls, starting from the empty table. -/
def registeredCastApplications (regs : List (String × String)) :
    List (String × String) :=
  regs.foldl (fun table reg => registerCastApplication table reg.1 reg.2) []

/-- Property names that a plain JavaScript object literal inherits from
Object.prototype: reading any of them on the castApplications table yields
an inherited function or object, hence a truthy value, even when the key
was never assigned. -/
def objectPrototypeProps : List String :=
  ["constructor", "hasOwnProperty", "isPrototypeOf",
   "propertyIsEnumerable", "toLocaleString", "toString", "valueOf",
   "__defineGetter__", "__defineSetter__",
   "__lookupGetter__", "__lookupSetter__", "__proto__"]

/-- Value produced by the property access castApplications[url]. -/
inductive JsPropValue
  | undefinedVal
  | stringVal (s : String)
  | inheritedVal
deriving DecidableEq, Repr

/-- Property access castApplications[url] on the plain-object mapping
table: an own property (the most recent registerCastApplication assignment
for the url) wins; otherwise the access walks the prototype chain and, for
the property names of Object.prototype, yields an inherited function or
object; otherwise it yields undefined. -/
def castApplicationsAccess (castApplications : List (String × String))
    (url : String) : JsPropValue :=
  match castApplications.lookup url with
  | some id => JsPropValue.stringVal id
  | none =>
    if url ∈ objectPrototypeProps then JsPropValue.inheritedVal
    else JsPropValue.undefinedVal

/-- Truthiness of the accessed value, as tested by the negation
!castApplications[url]: undefined is falsy, the empty string is falsy, any
other string is truthy, and an inherited function or object is truthy. -/
def JsPropValue.truthy : JsPropValue → Bool
  | JsPropValue.undefinedVal => false
  | JsPropValue.stringVal s => s != ""
  | JsPropValue.inheritedVal => true

/-- Outcome of the validation prefix of CastDisplay.navigate. -/
inductive NavOutcome
  | rejectedOperationError
  | proceeds
deriving DecidableEq, Repr

/-- CastDisplay.navigate, validation prefix: the promise rejects with
OperationError when the Cast API library is unavailable; it rejects with
OperationError when the property access castApplications[url] produces a
falsy value; and otherwise the method proceeds to Cast session
establishment (which this model does not pursue further, its outcome being
Cast-SDK dependent). -/
def CastDisplay.navigate (castApiAvailable : Bool)
    (castApplications : List (String × String)) (url : String) :
    NavOutcome :=
  if !castApiAvailable then NavOutcome.rejectedOperationError
  else if !(castApplicationsAccess castApplications url).truthy then
    NavOutcome.rejectedOperationError
  else NavOutcome.proceeds

/-- Connection obtained after one full createDataChannel round on a fresh
connection, the remote peer having resolved with a connected channel. -/
def materializedConnection : PresentationConnection :=
  PresentationConnection.createDataChannelComplete
    (PresentationConnection.fresh.createDataChannelCall).1 PState.connected

/-- Connection obtained by terminating materializedConnection. -/
def terminatedConnection : PresentationConnection :=
  materializedConnection.terminate

/-- Connection obtained by running createDataChannel again after
termination, the remote peer again resolving with a connected channel. -/
def rematerializedConnection : PresentationConnection :=
  PresentationConnection.createDataChannelComplete
    (terminatedConnection.createDataChannelCall).1 PState.connected

/-- Concrete registry with two presentations for the url "u". -/
def regExample : List PresentationRecord :=
  [{ url := "u", id := 0, connection := 10 },
   { url := "u", id := 1, connection := 11 }]

/-- Concrete receiver with one outstanding getConnection promise whose
resolve function is stored, and no incoming connection detected yet. -/
def recvExample : PresentationReceiver :=
  { pendingPromise := some 0, nextPromiseToken := 1,
    pendingResolve := some 0, lastDetected := none, materialized := [],
    incoming := [], resolved := [], monitorPasses := 1 }

/-- Receiver after an interleaved run on recvExample: controller 1 is
detected (its channel creation starts), controller 2 is detected while
that creation is still in flight, and then connection 1's channel
materializes. -/
def recvAfterInterleaving : PresentationReceiver :=
  (((recvExample.controllerDetected 1).controllerDetected 2).channelMaterialized 1)

/-- Helper: terminate always leaves the connection state at terminated. -/
lemma terminate_state (c : PresentationConnection) :
    c.terminate.state = PState.terminated := by
  obtain ⟨st, ch, pp, ev, pc, pt⟩ := c
  cases ch with
  | none =>
    cases st <;>
      simp [PresentationConnection.terminate,
        PresentationConnection.channelStateChange]
  | some chs =>
    cases chs <;> cases st <;>
      simp [PresentationConnection.terminate,
        PresentationConnection.channelStateChange]

/-- Helper: terminate never leaves a connected channel behind. -/
lemma terminate_channel_ne_connected (c : PresentationConnection) :
    c.terminate.channel ≠ some PState.connected := by
  obtain ⟨st, ch, pp, ev, pc, pt⟩ := c
  cases ch with
  | none =>
    cases st <;>
      simp [PresentationConnection.terminate,
        PresentationConnection.channelStateChange]
  | some chs =>
    cases chs <;> cases st <;>
      simp [PresentationConnection.terminate,
        PresentationConnection.channelStateChange]

/-- Claim C10: close on a connection whose channel has not materialized is
a complete no-op at the public interface: the connection state (state
field, channel, event count) is returned unchanged, so the state field is
untouched and no onstatechange fires. -/
theorem C10_close_no_channel (c : PresentationConnection)
    (h : c.channel = none) : c.close = c := by
  simp [PresentationConnection.close, h]

/-- Witness for C10 on a fresh connection. -/
theorem C10_close_no_channel_witness :
    PresentationConnection.fresh.close = PresentationConnection.fresh :=
  C10_close_no_channel PresentationConnection.fresh rfl

/-- Counterexample to claim C5: on a connected connection whose remote
peer is a WindowRemoteController (the receiver side of the window
mechanism), terminate closes the channel, then raises a TypeError because
no terminate method exists on the peer, and the state reads closed, not
terminated. -/
theorem C5_counterexample :
    materializedConnection.state = PState.connected ∧
    materializedConnection.terminateWindowReceiver.1.state =
      PState.closed ∧
    materializedConnection.terminateWindowReceiver.2 =
      Except.error DOMErr.TypeError ∧
    PState.closed ≠ PState.terminated :=
  ⟨by decide, by decide, rfl, by decide⟩

/-- Claim C5 as amended: after terminate is called on a connection whose
state is connected and whose remote peer implements terminate (Display,
CastDisplay, WindowDisplay or CastRemoteController peers), the state reads
terminated (not closed) and a subsequent send fails with
InvalidStateError; on a connection whose remote peer is a
WindowRemoteController, terminate closes the channel (the state reading
closed) and then raises a TypeError, and a subsequent send still fails
with InvalidStateError. -/
theorem C5_terminate_then_send (c : PresentationConnection)
    (h : c.state = PState.connected) :
    (c.terminate.state = PState.terminated ∧
     c.terminate.state ≠ PState.closed ∧
     c.terminate.send = Except.error DOMErr.InvalidStateError) ∧
    (c.channel = some PState.connected →
      c.terminateWindowReceiver.1.state = PState.closed ∧
      c.terminateWindowReceiver.2 = Except.error DOMErr.TypeError ∧
      c.terminateWindowReceiver.1.send =
        Except.error DOMErr.InvalidStateError) := by
  constructor
  · have hs := terminate_state c
    refine ⟨hs, by simp [hs], ?_⟩
    unfold PresentationConnection.send
    cases hch : c.terminate.channel with
    | none => simp
    | some chs => simp [hs]
  · intro hch
    obtain ⟨st, ch, pp, ev, pc, pt⟩ := c
    simp only at h hch
    subst h
    subst hch
    simp [PresentationConnection.terminateWindowReceiver,
      PresentationConnection.channelStateChange,
      PresentationConnection.send]

/-- Witness for C5 on a connection with a connected materialized
channel, exercising both the peers-with-terminate part and the
window-receiver part. -/
theorem C5_terminate_then_send_witness :
    materializedConnection.terminate.send =
      Except.error DOMErr.InvalidStateError ∧
    materializedConnection.terminateWindowReceiver.1.state =
      PState.closed :=
  ⟨(C5_terminate_then_send materializedConnection (by decide)).1.2.2,
   ((C5_terminate_then_send materializedConnection (by decide)).2
     (by decide)).1⟩

/-- Claim C2 (failing input): on a fresh connection, the first call to
createDataChannel starts one creation attempt on the remote peer; a second
call made while that attempt is in flight does not return the shared
pending promise: it raises a TypeError (the code applies the stored
Promise as a function), leaving the state unchanged, so the remote peer's
createDataChannel has still been invoked exactly once. -/
theorem C2_createDataChannel_in_flight :
    (PresentationConnection.fresh.createDataChannelCall).2 =
      CreateDataChannelResult.newPending ∧
    (PresentationConnection.fresh.createDataChannelCall).1.peerCreateCalls
      = 1 ∧
    (PresentationConnection.fresh.createDataChannelCall).1.createDataChannelCall
      = ((PresentationConnection.fresh.createDataChannelCall).1,
         CreateDataChannelResult.raisedTypeError) ∧
    CreateDataChannelResult.raisedTypeError ≠
      CreateDataChannelResult.newPending := by decide

/-- Counterexample to claim C3: terminatedConnection has state terminated,
yet running createDataChannel again and processing the completion of the
resulting channel materialization (a channel state change to connected)
moves the state away from terminated, to connected. -/
theorem C3_counterexample :
    terminatedConnection.state = PState.terminated ∧
    terminatedConnection.createDataChannelCall.2 =
      CreateDataChannelResult.newPending ∧
    rematerializedConnection.state = PState.connected ∧
    PState.connected ≠ PState.terminated := by decide

/-- Claim C3 as amended: whenever a channel state change is processed, and
whenever channel materialization completes, the connection state is set to
the channel's state unconditionally; there is no exception for terminated,
which is overwritten like any other state. -/
theorem C3_state_sync (c : PresentationConnection) (s : PState) :
    (c.channelStateChange s).state = s ∧
    (c.createDataChannelComplete s).state = s := by
  obtain ⟨st, ch, pp, ev, pc, pt⟩ := c
  cases s <;> cases st <;>
    simp [PresentationConnection.channelStateChange,
      PresentationConnection.createDataChannelComplete]

/-- Counterexample to claim C7: on a connection with a connected
materialized channel, calling terminate twice in a row performs two state
transitions and fires the connection's onstatechange twice across the two
calls (once when the channel close is synchronized to closed, once for the
move to terminated), not at most once. -/
theorem C7_counterexample :
    materializedConnection.state = PState.connected ∧
    materializedConnection.channel = some PState.connected ∧
    materializedConnection.terminate.terminate.events =
      materializedConnection.events + 2 ∧
    ¬(materializedConnection.terminate.terminate.events ≤
        materializedConnection.events + 1) := by decide

/-- Claim C7 as amended: DataChannel.close is idempotent (a second close
changes nothing, close on an already-closed channel changes nothing, and
one close fires at most one onstatechange); terminate is idempotent in the
sense that the second call only repeats the remote peer teardown and
performs no further state transition and fires no further onstatechange —
though a single terminate on a connection with a connected channel itself
fires two. -/
theorem C7_idempotent (ch : DataChannel) (c : PresentationConnection) :
    DataChannel.close (DataChannel.close ch) = DataChannel.close ch ∧
    (ch.state = PState.closed → DataChannel.close ch = ch) ∧
    (DataChannel.close ch).events ≤ ch.events + 1 ∧
    c.terminate.terminate =
      { c.terminate with
          peerTerminateCalls := c.terminate.peerTerminateCalls + 1 } := by
  refine ⟨?_, ?_, ?_, ?_⟩
  · obtain ⟨st, ev⟩ := ch
    cases st <;> simp [DataChannel.close]
  · intro h
    simp [DataChannel.close, h]
  · obtain ⟨st, ev⟩ := ch
    cases st <;> simp [DataChannel.close]
  · obtain ⟨st, ch, pp, ev, pc, pt⟩ := c
    cases ch with
    | none =>
      cases st <;>
        simp [PresentationConnection.terminate,
          PresentationConnection.channelStateChange]
    | some chs =>
      cases chs <;> cases st <;>
        simp [PresentationConnection.terminate,
          PresentationConnection.channelStateChange]

/-- Witness for C7 as amended: close on an already-closed channel changes
nothing. -/
theorem C7_idempotent_witness :
    DataChannel.close { state := PState.closed, events := 0 } =
      { state := PState.closed, events := 0 } :=
  (C7_idempotent { state := PState.closed, events := 0 }
    PresentationConnection.fresh).2.1 rfl

/-- Helper: folding concatenation over all-empty lists returns the
accumulator. -/
lemma foldl_append_all_nil (rest : List (List String))
    (h : ∀ m ∈ rest, m = ([] : List String)) :
    ∀ l, rest.foldl (fun a b => a ++ b) l = l := by
  induction rest with
  | nil => intro l; rfl
  | cons m ms ih =>
    intro l
    have hm : m = [] := h m (List.mem_cons_self m ms)
    have hms : ∀ x ∈ ms, x = ([] : List String) :=
      fun x hx => h x (List.mem_cons_of_mem m hx)
    rw [List.foldl_cons, hm, List.append_nil]
    exact ih hms l

/-- Claim C1 (failing input at zero mechanisms): with zero registered
mechanisms, start does not reject with NotFoundError — the flatten step of
monitorAvailablePresentationDisplays raises a TypeError so the monitoring
promise never settles and start hangs; with at least one registered
mechanism and the mechanisms collectively reporting zero displays, start
rejects with NotFoundError and the user-selection step is never
reached. -/
theorem C1_start_zero_displays :
    start [] = StartOutcome.hung ∧
    StartOutcome.hung ≠ StartOutcome.rejected DOMErr.NotFoundError ∧
    (∀ lists, lists ≠ [] → (∀ l ∈ lists, l = ([] : List String)) →
      start lists = StartOutcome.rejected DOMErr.NotFoundError) := by
  refine ⟨rfl, by decide, ?_⟩
  intro lists h1 h2
  match lists, h1 with
  | l :: rest, _ =>
    have hl : l = [] := h2 l (List.mem_cons_self l rest)
    have hrest : ∀ m ∈ rest, m = ([] : List String) :=
      fun m hm => h2 m (List.mem_cons_of_mem l hm)
    simp [start, flattenDisplayLists, foldl_append_all_nil rest hrest, hl]

/-- Witness for C1: two registered mechanisms each reporting an empty
display list make start reject with NotFoundError. -/
theorem C1_start_zero_displays_witness :
    start [[], []] = StartOutcome.rejected DOMErr.NotFoundError :=
  C1_start_zero_displays.2.2 [[], []] (by decide) (by decide)

/-- Claim C4: reconnect leaves the registry unchanged (so it never creates
a second connection for an id), two successive calls with the same id give
the identical result, a matching record makes the promise resolve with that
record's existing connection, and the absence of any matching record makes
the promise reject with NotFoundError. -/
theorem C4_reconnect (reg : List PresentationRecord) (url : String)
    (pid : Nat) :
    (reconnect reg url pid).1 = reg ∧
    (reconnect (reconnect reg url pid).1 url pid).2 =
      (reconnect reg url pid).2 ∧
    (∀ q, reg.find? (fun p => p.url == url && p.id == pid) = some q →
      q ∈ reg ∧ q.url = url ∧ q.id = pid ∧
      (reconnect reg url pid).2 = Except.ok q.connection) ∧
    ((∀ p ∈ reg, ¬(p.url = url ∧ p.id = pid)) →
      (reconnect reg url pid).2 = Except.error DOMErr.NotFoundError) := by
  have hfst : (reconnect reg url pid).1 = reg := by
    unfold reconnect
    cases h : reg.find? (fun p => p.url == url && p.id == pid) <;> simp
  refine ⟨hfst, by rw [hfst], ?_, ?_⟩
  · intro q hq
    have hmem := List.mem_of_find?_eq_some hq
    have hpq := List.find?_some hq
    have hq2 : q.url = url ∧ q.id = pid := by
      simpa using hpq
    refine ⟨hmem, hq2.1, hq2.2, ?_⟩
    unfold reconnect
    rw [hq]
  · intro hnone
    have h : reg.find? (fun p => p.url == url && p.id == pid) = none := by
      rw [List.find?_eq_none]
      intro p hp
      have := hnone p hp
      simpa using this
    unfold reconnect
    rw [h]

/-- Witness for C4 on a registry with two presentations for the url "u":
reconnecting with id 1 resolves with the existing connection token 11 both
times, and an unknown id rejects with NotFoundError. -/
theorem C4_reconnect_witness :
    (reconnect regExample "u" 1).2 = Except.ok 11 ∧
    (reconnect regExample "u" 5).2 =
      Except.error DOMErr.NotFoundError := by
  constructor
  · exact ((C4_reconnect regExample "u" 1).2.2.1
      { url := "u", id := 1, connection := 11 } (by decide)).2.2.2
  · exact (C4_reconnect regExample "u" 5).2.2.2 (by decide)

/-- Counterexample to claim C6: on a receiver with a stored pending
resolve, controller 1 is detected, controller 2 is detected while
connection 1's channel creation is in flight, and connection 1's channel
then materializes; the pending promise resolves with connection 2 — the
most recently detected connection, read from the shared connection
variable — even though only connection 1's channel has materialized, so
the promise does not resolve with the first connection whose channel
materialized. -/
theorem C6_counterexample :
    recvAfterInterleaving.resolved = [(0, 2)] ∧
    recvAfterInterleaving.materialized = [1] ∧
    recvAfterInterleaving.incoming = [2] ∧
    ¬(2 ∈ recvAfterInterleaving.materialized) := by decide

/-- Claim C6 as amended: getConnection returns the already outstanding
pending promise unchanged when one exists (and in every case starts no
monitoring pass); the task it queues for a fresh promise leaves the
promise pending when no incoming presentation has been pushed, and
otherwise resolves it with the first pushed connection; a stored pending
resolve is triggered by the first channel materialization, which resolves
the promise exactly once and clears the pending state — but with the most
recently detected connection (all detection handlers share one connection
variable), which is the materialized connection itself only when no other
controller was detected after it. -/
theorem C6_getConnection (r : PresentationReceiver) :
    (∀ t, r.pendingPromise = some t → r.getConnection = (r, t)) ∧
    (r.getConnection).1.monitorPasses = r.monitorPasses ∧
    (∀ t, r.incoming = [] →
      (r.getConnectionTask t).resolved = r.resolved ∧
      (r.getConnectionTask t).pendingResolve = some t) ∧
    (∀ t c rest, r.incoming = c :: rest →
      (r.getConnectionTask t).resolved = r.resolved ++ [(t, c)]) ∧
    (∀ t c d, r.pendingResolve = some t → r.lastDetected = some d →
      (r.channelMaterialized c).resolved = r.resolved ++ [(t, d)] ∧
      (r.channelMaterialized c).pendingResolve = none ∧
      (r.channelMaterialized c).pendingPromise = none) ∧
    (∀ t c, r.pendingResolve = some t → r.lastDetected = some c →
      r.incoming = [] →
      (r.channelMaterialized c).resolved = r.resolved ++ [(t, c)] ∧
      (r.channelMaterialized c).incoming = [c] ∧
      c ∈ (r.channelMaterialized c).materialized) := by
  refine ⟨?_, ?_, ?_, ?_, ?_, ?_⟩
  · intro t ht
    simp [PresentationReceiver.getConnection, ht]
  · unfold PresentationReceiver.getConnection
    cases h : r.pendingPromise <;> simp
  · intro t ht
    simp [PresentationReceiver.getConnectionTask, ht]
  · intro t c rest ht
    simp [PresentationReceiver.getConnectionTask, ht]
  · intro t c d ht hd
    simp [PresentationReceiver.channelMaterialized, ht, hd]
  · intro t c ht hd hinc
    simp [PresentationReceiver.channelMaterialized, ht, hd, hinc]

/-- Witness for C6 on a receiver with an outstanding pending promise, a
stored pending resolve and no detection yet: a further getConnection call
returns the same promise with the state unchanged, and when connection 7
is detected and its own channel materializes with no interleaved
detection, the promise resolves with connection 7 itself. -/
theorem C6_getConnection_witness :
    recvExample.getConnection = (recvExample, 0) ∧
    ((recvExample.controllerDetected 7).channelMaterialized 7).resolved =
      [(0, 7)] ∧
    ((recvExample.controllerDetected 7).channelMaterialized 7).incoming =
      [7] := by
  refine ⟨(C6_getConnection recvExample).1 0 rfl, ?_, ?_⟩
  · simpa using
      ((C6_getConnection (recvExample.controllerDetected 7)).2.2.2.2.2
        0 7 rfl rfl rfl).1
  · exact ((C6_getConnection (recvExample.controllerDetected 7)).2.2.2.2.2
      0 7 rfl rfl rfl).2.1

/-- Helper: starting from a registry whose identifiers are exactly
0, ..., length - 1, any further sequence of start calls keeps that shape. -/
lemma foldl_create_ids (urls : List String)
    (reg : List PresentationRecord)
    (h : reg.map PresentationRecord.id = List.range reg.length) :
    ((urls.foldl
        (fun r u => (createPresentationConnection r u r.length).1)
        reg).map PresentationRecord.id) =
      List.range (reg.length + urls.length) := by
  induction urls generalizing reg with
  | nil => simpa using h
  | cons u rest ih =>
    have hstep :
        ((createPresentationConnection reg u reg.length).1).map
            PresentationRecord.id = List.range (reg.length + 1) := by
      simp [createPresentationConnection,
        getNewValidPresentationConnectionIdentifier, h, List.range_succ]
    have hlen :
        ((createPresentationConnection reg u reg.length).1).length =
          reg.length + 1 := by
      simp [createPresentationConnection]
    have := ih ((createPresentationConnection reg u reg.length).1)
      (by rw [hstep, hlen])
    rw [List.foldl_cons, this, hlen]
    congr 1
    rw [List.length_cons]
    omega

/-- Claim C8: after any sequence of successful start calls, the
identifiers of the append-only registry read 0, 1, ..., n - 1 in
registration order: they form a strictly increasing sequence and no
identifier is ever assigned twice. -/
theorem C8_identifiers (urls : List String) :
    (runStarts urls).map PresentationRecord.id =
      List.range urls.length ∧
    List.Pairwise (fun a b => a < b)
      ((runStarts urls).map PresentationRecord.id) ∧
    ((runStarts urls).map PresentationRecord.id).Nodup := by
  have h : (runStarts urls).map PresentationRecord.id =
      List.range urls.length := by
    have := foldl_create_ids urls [] (by simp)
    simpa [runStarts] using this
  refine ⟨h, ?_, ?_⟩
  · rw [h]; exact List.pairwise_lt_range urls.length
  · rw [h]; exact List.nodup_range urls.length

/-- Helper: a table built from registerCastApplication calls holds exactly
the registered pairs, most recent first. -/
lemma registeredCastApplications_eq (regs : List (String × String)) :
    registeredCastApplications regs = regs.reverse := by
  have key : ∀ (rs : List (String × String)) (t : List (String × String)),
      rs.foldl (fun table reg => registerCastApplication table reg.1 reg.2) t
        = rs.reverse ++ t := by
    intro rs
    induction rs with
    | nil => intro t; simp
    | cons r rest ih =>
      intro t
      rw [List.foldl_cons]
      rw [ih (registerCastApplication t r.1 r.2)]
      simp [registerCastApplication]

  simpa using key regs []

/-- Helper: looking up a key absent from a pair list gives none. -/
lemma lookup_not_mem_keys (l : List (String × String)) (url : String)
    (h : url ∉ l.map Prod.fst) : l.lookup url = none := by
  rw [List.lookup_eq_none_iff]
  intro p hp
  have : p.1 ∈ l.map Prod.fst := List.mem_map_of_mem Prod.fst hp
  have hne : url ≠ p.1 := by
    intro heq
    exact h (heq ▸ this)
  simpa using hne

/-- Counterexample to claim C9: the url "toString" is not registered (the
mapping table is empty), yet navigate does not reject with OperationError:
the property access castApplications[url] finds the function inherited
from Object.prototype, the truthiness check passes, and navigation
proceeds to Cast session establishment. -/
theorem C9_counterexample :
    "toString" ∈ objectPrototypeProps ∧
    CastDisplay.navigate true (registeredCastApplications []) "toString" =
      NavOutcome.proceeds ∧
    NavOutcome.proceeds ≠ NavOutcome.rejectedOperationError := by decide

/-- Claim C9 as amended: navigating a Cast display to a url that was never
passed to registerCastApplication rejects with OperationError, whatever
the availability of the Cast API library, provided the url does not name a
property of Object.prototype; an unregistered url that does name one (such
as "toString") passes the !castApplications[url] check on the inherited
value, and navigation proceeds to Cast session establishment instead of
rejecting. -/
theorem C9_navigate_unregistered (castApiAvailable : Bool)
    (regs : List (String × String)) (url : String)
    (h : url ∉ regs.map Prod.fst) :
    (url ∉ objectPrototypeProps →
      CastDisplay.navigate castApiAvailable
        (registeredCastApplications regs) url =
        NavOutcome.rejectedOperationError) ∧
    (url ∈ objectPrototypeProps →
      CastDisplay.navigate true
        (registeredCastApplications regs) url = NavOutcome.proceeds) := by
  have hkeys : url ∉ (registeredCastApplications regs).map Prod.fst := by
    rw [registeredCastApplications_eq]
    simpa using h
  have hl : (registeredCastApplications regs).lookup url = none :=
    lookup_not_mem_keys _ url hkeys
  constructor
  · intro hp
    cases castApiAvailable <;>
      simp [CastDisplay.navigate, castApplicationsAccess, hl, hp,
        JsPropValue.truthy]
  · intro hp
    simp [CastDisplay.navigate, castApplicationsAccess, hl, hp,
      JsPropValue.truthy]

/-- Witness for C9 as amended: with only the url "a" registered,
navigating to "b" rejects with OperationError even though the Cast API is
available, while navigating to the unregistered url "valueOf" proceeds. -/
theorem C9_navigate_unregistered_witness :
    CastDisplay.navigate true
      (registeredCastApplications [("a", "id1")]) "b" =
      NavOutcome.rejectedOperationError ∧
    CastDisplay.navigate true
      (registeredCastApplications [("a", "id1")]) "valueOf" =
      NavOutcome.proceeds :=
  ⟨(C9_navigate_unregistered true [("a", "id1")] "b" (by decide)).1
    (by decide),
   (C9_navigate_unregistered true [("a", "id1")] "valueOf" (by decide)).2
    (by decide)⟩

end SlidyRemote
